import Mathlib

/-!
Verification of the statusboard slideshow driver (src/status.py).

The development shallowly embeds the scheduling core, the resilient fetch
wrapper, the rain-forecast lookup, the transit (MVV) adapter lifecycle and
the shutdown path of `main`.  External effects (network fetches, the
headless browser, the filesystem, the e-paper driver) are modelled as
explicit oracle inputs; machine floats are modelled as rationals; Python
exceptions are modelled as explicit error values.  Times are rationals in
seconds, as returned by the monotonic clock.
-/

namespace Statusboard

/-! Display and cadence constants (src/status.py lines 63-79). -/

def SLIDE_INTERVAL : ℚ := 60
def WX_REFRESH : ℚ := 15 * 60
def RAIN_REFRESH : ℚ := 5 * 60
def MVV_REFRESH : ℚ := 120
def FULL_REFRESH : ℚ := 60 * 60
def RAIN_THRESHOLD_MM : ℚ := 1 / 10

def PROG_SEG_W : Int := 10
def PROG_GAP : Int := 6
def PROG_BOX_X1 : Int := 0
def PROG_BOX_X2 : Int := 800

/-! Python primitives used by the source. -/

/-- Helper for `splitlines`: walks the characters, accumulating the current
line in reverse.  Splitting is on the newline character, which is the only
line separator occurring in the error strings this program handles. -/
def splitlinesAux : List Char → List Char → List String
  | [], [] => []
  | [], acc => [String.mk acc.reverse]
  | c :: rest, acc =>
    if c = '\n' then String.mk acc.reverse :: splitlinesAux rest []
    else splitlinesAux rest (c :: acc)

/-- Python `str.splitlines`: the empty string yields the empty list; a
trailing newline does not produce a final empty line. -/
def splitlines (s : String) : List String := splitlinesAux s.toList []

/-- Python `round` on a real value: round half to even, returning an integer.
Used for `int(round(...))` in the source. -/
def pyRound (q : ℚ) : Int :=
  if q - Int.floor q < 1 / 2 then Int.floor q
  else if q - Int.floor q > 1 / 2 then Int.floor q + 1
  else if Int.floor q % 2 = 0 then Int.floor q else Int.floor q + 1

/-- Python `a or b` on optional strings, where both `None` and the empty
string are falsy (src/status.py lines 460, 489, 496). -/
def pyOr (a b : Option String) : Option String :=
  match a with
  | some s => if s = "" then b else some s
  | none => b

/-- Python `a or b` where `a` is an optional string and `b` a string
default (src/status.py line 316). -/
def pyOrStr (a : Option String) (b : String) : String :=
  match a with
  | some s => if s = "" then b else s
  | none => b

/-! Resilient fetcher (src/status.py lines 435-440). -/

/-- Outcome of invoking an external operation: either its value or the
message of the exception it raised. -/
inductive FetchOutcome (α : Type) where
  | ok (v : α)
  | exn (msg : String)
  deriving DecidableEq

/-- Exceptions raised by the embedded Python fragments themselves. -/
inductive PyError where
  | indexError
  deriving DecidableEq

/-- Embeds `safe_fetch` (src/status.py lines 435-440).  A successful
operation yields `(value, None)`; a failing one is caught and converted to
`(None, str(exc).splitlines()[0])`.  When the exception message is empty,
`splitlines()` is empty and the subscript `[0]` itself raises `IndexError`,
which propagates to the caller. -/
def safe_fetch {α : Type} (fetcher : FetchOutcome α) :
    Except PyError (Option α × Option String) :=
  match fetcher with
  | .ok v => .ok (some v, none)
  | .exn msg =>
    match splitlines msg with
    | [] => .error .indexError
    | line :: _ => .ok (none, some line)

/-! Rain-ETA lookup (src/status.py lines 186-209). -/

/-- The scan of `fetch_rain_eta` over the zipped forecast buckets
(src/status.py lines 202-209): buckets with a null amount are skipped; the
first bucket whose amount reaches the threshold yields
`max(int(round((stamp - now) / 60)), 0)` minutes; otherwise the result is
absent. -/
def rainScan (now threshold : ℚ) : List (ℚ × Option ℚ) → Option Int
  | [] => none
  | (stamp, amount) :: rest =>
    match amount with
    | none => rainScan now threshold rest
    | some a =>
      if a ≥ threshold then some (max (pyRound ((stamp - now) / 60)) 0)
      else rainScan now threshold rest

/-- Embeds `fetch_rain_eta` (src/status.py lines 186-209) after the HTTP
response has been decoded: `times` are the forecast bucket timestamps in
seconds, `prec` the aligned precipitation amounts (null modelled as
`none`), `now` the current time in seconds. -/
def fetch_rain_eta (times : List ℚ) (prec : List (Option ℚ))
    (now threshold : ℚ) : Option Int :=
  rainScan now threshold (times.zip prec)

/-- Decides whether a forecast bucket is a hit: its amount is present and
at least the threshold. -/
def rainHit (threshold : ℚ) (b : ℚ × Option ℚ) : Bool :=
  match b.2 with
  | none => false
  | some a => a ≥ threshold

/-- The rain-ETA lookup as claim C4 words it: only buckets at or after
`now` are considered, and the first such hit yields the rounded minutes
from now to that bucket. -/
def claimRainScan (now threshold : ℚ) : List (ℚ × Option ℚ) → Option Int
  | [] => none
  | (stamp, amount) :: rest =>
    if stamp ≥ now then
      match amount with
      | none => claimRainScan now threshold rest
      | some a =>
        if a ≥ threshold then some (pyRound ((stamp - now) / 60))
        else claimRainScan now threshold rest
    else claimRainScan now threshold rest

/-- The claim-side rain-ETA lookup on the zipped forecast lists. -/
def claimRainEta (times : List ℚ) (prec : List (Option ℚ))
    (now threshold : ℚ) : Option Int :=
  claimRainScan now threshold (times.zip prec)

/-- Claim C4 as stated: the code computes the claim-side value on every
forecast response and threshold. -/
def c4ClaimHolds : Prop :=
  ∀ (times : List ℚ) (prec : List (Option ℚ)) (now threshold : ℚ),
    fetch_rain_eta times prec now threshold = claimRainEta times prec now threshold

/-! Progress indicator (src/status.py lines 323-340). -/

/-- Total number of progress segments: `max(1, (x2 - x1) // step)` with
Python floor division (src/status.py line 331). -/
def progSegs : Int :=
  max 1 (Int.fdiv (PROG_BOX_X2 - PROG_BOX_X1) (PROG_SEG_W + PROG_GAP))

/-- Number of filled segments drawn by `draw_progress` (src/status.py lines
323-332): the fraction is clamped into the unit interval before
`int(round(frac * segs))`. -/
def draw_progress_filled (frac : ℚ) : Int :=
  pyRound (max 0 (min 1 frac) * (progSegs : ℚ))

/-! Transit (MVV) adapter (src/status.py lines 215-317). -/

/-- Outcome of a `driver.get` navigation: success, a `TimeoutException`
(which the source swallows), or another exception that propagates. -/
inductive GetOutcome where
  | success
  | timeout
  | fail (msg : String)
  deriving DecidableEq

/-- Oracle for one run of `init_browser` (src/status.py lines 215-250):
the temp-file name it would allocate and the outcome of each fallible
step, in source order.  `chromeResult` carries the session id allocated by
`webdriver.Chrome` when the launch succeeds. -/
structure InitEnv where
  tmpName : String
  tmpFail : Option String
  chromeResult : FetchOutcome Nat
  setTimeoutFail : Option String
  navResult : GetOutcome
  deriving DecidableEq

/-- Oracle for one call of `get_mvv_image_cached`: the monotonic time, the
`init_browser` oracle, the outcome of the periodic re-navigation, the name
`tempfile.mktemp` would yield, the outcome of `grab_mvv_png`, and whether
the snapshot file exists when the canvas is composed. -/
structure MvvEnv where
  now : ℚ
  init : InitEnv
  reloadNav : GetOutcome
  freshPng : String
  grabFail : Option String
  pngExists : Bool
  deriving DecidableEq

/-- The adapter state dict (src/status.py lines 264-317): absent keys are
`none`.  `driver` holds the session id of the live browser session. -/
structure MvvState where
  driver : Option Nat := none
  html_path : Option String := none
  last_reload : Option ℚ := none
  last_shot : Option ℚ := none
  png_path : Option String := none
  err : Option String := none
  deriving DecidableEq

/-- Error string recorded by the adapter on a failure `exc`:
the first line of the interpolation `f"MVV: {...}"` of the message
(src/status.py lines 282, 303).  The interpolated string is nonempty, so
the subscript `[0]` cannot raise here; `headD` is exact. -/
def mvvFirstLine (msg : String) : String :=
  (splitlines ("MVV: " ++ msg)).headD ""

/-- Embeds `init_browser` (src/status.py lines 215-250).  Returns the
result (session id and temp-file path, or the propagated exception
message) together with the list of browser sessions launched during the
call, stored or not: a failure after `webdriver.Chrome` succeeded still
launched a session.  A non-timeout failure of the initial `driver.get`
propagates (only `TimeoutException` is caught at lines 245-248). -/
def init_browser (mvvHtml : String) (env : InitEnv) :
    Except String (Nat × String) × List Nat :=
  if mvvHtml = "" then (.error "MVV HTML snippet not configured.", [])
  else
    match env.tmpFail with
    | some m => (.error m, [])
    | none =>
      match env.chromeResult with
      | .exn m => (.error m, [])
      | .ok d =>
        match env.setTimeoutFail with
        | some m => (.error m, [d])
        | none =>
          match env.navResult with
          | .fail m => (.error m, [d])
          | _ => (.ok (d, env.tmpName), [d])

/-- Canvas returned by `get_mvv_image_cached`, by construction site:
the fixed placeholder for the unconfigured case (lines 266-273), the bare
white canvas returned on a failed session creation (line 283), the pasted
snapshot with its border (lines 306-313), or an error/unavailable text
canvas (lines 314-316). -/
inductive MvvCanvas where
  | notConfigured
  | blank
  | snapshot (path : String)
  | message (text : String)
  deriving DecidableEq

/-- Result of one `get_mvv_image_cached` call: the canvas and error it
returns, the updated state dict, the sessions launched during the call and
whether session creation was attempted at all. -/
structure MvvResult where
  canvas : MvvCanvas
  errOut : Option String
  state : MvvState
  created : List Nat
  initTried : Bool
  deriving DecidableEq

/-- The snapshot-capture part of the refresh block (src/status.py lines
297-301 and the except at 302-303): on failure only `err` is recorded; on
success the snapshot path, `last_shot` and a cleared `err` are stored.
Python `or` makes an empty stored path fall back to a fresh temp name. -/
def mvvGrabStep (st : MvvState) (env : MvvEnv) : MvvState :=
  match env.grabFail with
  | some m => { st with err := some (mvvFirstLine m) }
  | none =>
    { st with
      png_path := some (match st.png_path with
        | some p => if p = "" then env.freshPng else p
        | none => env.freshPng),
      last_shot := some env.now, err := none }

/-- The guarded refresh block (src/status.py lines 286-303): it runs only
when the snapshot cadence is due; the re-navigation runs on its own longer
cadence, a failing re-navigation aborts the try block with only `err`
recorded, and a `TimeoutException` there is swallowed. -/
def mvvSnapshotStep (st : MvvState) (env : MvvEnv) : MvvState :=
  if env.now - (st.last_shot.getD 0) > MVV_REFRESH then
    if env.now - (st.last_reload.getD 0) > 600 then
      match env.reloadNav with
      | .fail m => { st with err := some (mvvFirstLine m) }
      | _ => mvvGrabStep { st with last_reload := some env.now } env
    else mvvGrabStep st env
  else st

/-- Canvas composition (src/status.py lines 305-316): the snapshot is
pasted when a nonempty path is stored and the file exists; otherwise the
recorded error (or the fixed unavailable text) is drawn. -/
def mvvCompose (st : MvvState) (env : MvvEnv) : MvvCanvas :=
  match st.png_path with
  | some p =>
    if p ≠ "" ∧ env.pngExists then .snapshot p
    else .message (pyOrStr st.err "MVV Monitor nicht verfügbar")
  | none => .message (pyOrStr st.err "MVV Monitor nicht verfügbar")

/-- The tail of `get_mvv_image_cached` once a session is present in the
state: refresh if due, then compose the canvas and return the recorded
error. -/
def mvvAfterSession (st : MvvState) (env : MvvEnv) (created : List Nat)
    (tried : Bool) : MvvResult :=
  { canvas := mvvCompose (mvvSnapshotStep st env) env,
    errOut := (mvvSnapshotStep st env).err,
    state := mvvSnapshotStep st env,
    created := created, initTried := tried }

/-- Embeds `get_mvv_image_cached` (src/status.py lines 264-317).  With no
configured HTML the fixed placeholder is returned at once; otherwise the
session is created lazily, a creation failure records only the error and
returns a bare canvas, and a live session proceeds to the cadenced
snapshot refresh and canvas composition. -/
def get_mvv_image_cached (mvvHtml : String) (st : MvvState) (env : MvvEnv) :
    MvvResult :=
  if mvvHtml = "" then
    { canvas := .notConfigured,
      errOut := some "MVV Monitor nicht konfiguriert",
      state := { st with err := some "MVV Monitor nicht konfiguriert" },
      created := [], initTried := false }
  else
    match st.driver with
    | none =>
      match init_browser mvvHtml env.init with
      | (.error m, created) =>
        { canvas := .blank,
          errOut := some (mvvFirstLine m),
          state := { st with err := some (mvvFirstLine m) },
          created := created, initTried := true }
      | (.ok (d, path), created) =>
        mvvAfterSession
          { st with driver := some d, html_path := some path, last_reload := some 0 }
          env created true
    | some _ => mvvAfterSession st env [] false

/-- Aggregate of a sequence of `get_mvv_image_cached` calls: the outputs in
order, the final state, all sessions launched, and how many calls attempted
session creation. -/
structure MvvRun where
  outputs : List (MvvCanvas × Option String)
  state : MvvState
  created : List Nat
  initTries : Nat
  deriving DecidableEq

/-- Runs `get_mvv_image_cached` over a list of per-call oracles, threading
the state dict as the main loop does. -/
def runMvvCalls (mvvHtml : String) (st : MvvState) : List MvvEnv → MvvRun
  | [] => { outputs := [], state := st, created := [], initTries := 0 }
  | env :: rest =>
    let r := get_mvv_image_cached mvvHtml st env
    let rr := runMvvCalls mvvHtml r.state rest
    { outputs := (r.canvas, r.errOut) :: rr.outputs,
      state := rr.state,
      created := r.created ++ rr.created,
      initTries := (if r.initTried then 1 else 0) + rr.initTries }

/-- Claim C7 as stated: for any two failed session-creation attempts
followed by a successful one, the adapter ends with a live session and no
other launched session exists (no leak). -/
def c7ClaimHolds : Prop :=
  ∀ (mvvHtml : String) (st : MvvState) (e1 e2 e3 : MvvEnv),
    mvvHtml ≠ "" → st.driver = none →
    (∃ m cs, init_browser mvvHtml e1.init = (.error m, cs)) →
    (∃ m cs, init_browser mvvHtml e2.init = (.error m, cs)) →
    (∃ d p cs, init_browser mvvHtml e3.init = (.ok (d, p), cs)) →
    ∃ d, (runMvvCalls mvvHtml st [e1, e2, e3]).state.driver = some d ∧
      (runMvvCalls mvvHtml st [e1, e2, e3]).created = [d]

/-! Scheduler loop (src/status.py lines 446-513). -/

/-- The dict built by `fetch_current_weather` (src/status.py lines
159-183), as cached by the loop. -/
structure Weather where
  time : Option String
  temp : Option ℚ
  feels : Option ℚ
  precip : Option ℚ
  code : Option Int
  wind : Option ℚ
  deriving DecidableEq

/-- The two slides of the rotation. -/
inductive Slide where
  | weather
  | mvv
  deriving DecidableEq

/-- The toggle at src/status.py line 480. -/
def toggleSlide : Slide → Slide
  | .weather => .mvv
  | .mvv => .weather

/-- The mutable loop variables of `main` (src/status.py lines 458-471). -/
structure LoopState where
  slide : Slide
  slide_started : ℚ
  last_weather : ℚ
  last_rain : ℚ
  last_mvv : ℚ
  last_full : ℚ
  weather_data : Option Weather
  rain_eta : Option Int
  weather_err : Option String
  rain_err : Option String
  weather_error : Option String
  mvv : MvvState
  deriving DecidableEq

/-- Observable actions of one tick, in execution order.  A render event
stands for the draw of that slide followed by the `push_frame` with the
given refresh mode and progress fraction; a set event is the assignment of
the named cadence bookkeeping variable. -/
inductive Ev where
  | updateProgress (frac : ℚ)
  | setSlideStarted (t : ℚ)
  | fetchWeather
  | fetchRain
  | renderWeather (full : Bool) (progress : ℚ)
  | renderMvv (full : Bool) (progress : ℚ)
  | setLastWeather (t : ℚ)
  | setLastRain (t : ℚ)
  | setLastMvv (t : ℚ)
  | setLastFull (t : ℚ)
  deriving DecidableEq

/-- Oracle inputs of one tick: the monotonic time read at line 475 and the
outcomes of the external operations the tick may invoke. -/
structure TickInput where
  now : ℚ
  weatherFetch : FetchOutcome Weather
  rainFetch : FetchOutcome (Option Int)
  mvvEnv : MvvEnv
  deriving DecidableEq

/-- Slide rotation (src/status.py lines 479-485): once the slide interval
has elapsed, the slide toggles, `slide_started` is reset, and the newly
active slide is rendered — the weather slide with a full refresh, the
transit slide with a partial one, both with progress zero. -/
def rotationStep (mvvHtml : String) (s : LoopState) (now : ℚ) (env : MvvEnv) :
    LoopState × List Ev :=
  if now - s.slide_started ≥ SLIDE_INTERVAL then
    match toggleSlide s.slide with
    | .weather =>
      ({ s with slide := .weather, slide_started := now },
       [Ev.setSlideStarted now, Ev.renderWeather true 0])
    | .mvv =>
      ({ s with slide := .mvv, slide_started := now,
                mvv := (get_mvv_image_cached mvvHtml s.mvv env).state },
       [Ev.setSlideStarted now, Ev.renderMvv false 0])
  else (s, [])

/-- Weather cadence (src/status.py lines 487-492): fires only on the
weather slide; the fetch goes through `safe_fetch` (whose own `IndexError`
on an empty exception message propagates out of the tick), the cache and
combined error are updated, the slide is re-rendered partially, and only
then is `last_weather` assigned. -/
def weatherStep (s : LoopState) (now : ℚ) (wf : FetchOutcome Weather) :
    Except (List Ev × PyError) (LoopState × List Ev) :=
  if s.slide = Slide.weather ∧ now - s.last_weather ≥ WX_REFRESH then
    match safe_fetch wf with
    | .error e => .error ([Ev.fetchWeather], e)
    | .ok (v, werr) =>
      .ok ({ s with weather_data := v, weather_err := werr,
                    weather_error := pyOr werr s.rain_err,
                    last_weather := now },
           [Ev.fetchWeather,
            Ev.renderWeather false ((now - s.slide_started) / SLIDE_INTERVAL),
            Ev.setLastWeather now])
  else .ok (s, [])

/-- Rain cadence (src/status.py lines 494-499), analogous to the weather
cadence.  Python collapses the optional-of-optional returned by
`safe_fetch(fetch_rain_eta)`, hence the `join`. -/
def rainStep (s : LoopState) (now : ℚ) (rf : FetchOutcome (Option Int)) :
    Except (List Ev × PyError) (LoopState × List Ev) :=
  if s.slide = Slide.weather ∧ now - s.last_rain ≥ RAIN_REFRESH then
    match safe_fetch rf with
    | .error e => .error ([Ev.fetchRain], e)
    | .ok (v, rerr) =>
      .ok ({ s with rain_eta := v.join, rain_err := rerr,
                    weather_error := pyOr s.weather_err rerr,
                    last_rain := now },
           [Ev.fetchRain,
            Ev.renderWeather false ((now - s.slide_started) / SLIDE_INTERVAL),
            Ev.setLastRain now])
  else .ok (s, [])

/-- Transit-snapshot cadence (src/status.py lines 501-504): fires only on
the transit slide; renders partially, then assigns `last_mvv`. -/
def mvvStep (mvvHtml : String) (s : LoopState) (now : ℚ) (env : MvvEnv) :
    LoopState × List Ev :=
  if s.slide = Slide.mvv ∧ now - s.last_mvv ≥ MVV_REFRESH then
    ({ s with mvv := (get_mvv_image_cached mvvHtml s.mvv env).state, last_mvv := now },
     [Ev.renderMvv false ((now - s.slide_started) / SLIDE_INTERVAL),
      Ev.setLastMvv now])
  else (s, [])

/-- Full-refresh cadence (src/status.py lines 506-511): fires regardless
of the slide, rendering whichever slide is active in full mode, then
assigns `last_full`. -/
def fullStep (mvvHtml : String) (s : LoopState) (now : ℚ) (env : MvvEnv) :
    LoopState × List Ev :=
  if now - s.last_full ≥ FULL_REFRESH then
    match s.slide with
    | .weather =>
      ({ s with last_full := now },
       [Ev.renderWeather true ((now - s.slide_started) / SLIDE_INTERVAL),
        Ev.setLastFull now])
    | .mvv =>
      ({ s with mvv := (get_mvv_image_cached mvvHtml s.mvv env).state, last_full := now },
       [Ev.renderMvv true ((now - s.slide_started) / SLIDE_INTERVAL),
        Ev.setLastFull now])
  else (s, [])

/-- One iteration of the `while True` body (src/status.py lines 474-513):
the unconditional progress redraw, then the rotation, weather, rain,
transit and full-refresh blocks in source order.  An exception escaping a
block (the `safe_fetch` IndexError) aborts the tick with the events
already performed. -/
def tick (mvvHtml : String) (s : LoopState) (inp : TickInput) :
    Except (List Ev × PyError) (LoopState × List Ev) :=
  match weatherStep (rotationStep mvvHtml s inp.now inp.mvvEnv).1 inp.now inp.weatherFetch with
  | .error e =>
    .error (Ev.updateProgress ((inp.now - s.slide_started) / SLIDE_INTERVAL) ::
              ((rotationStep mvvHtml s inp.now inp.mvvEnv).2 ++ e.1), e.2)
  | .ok sw =>
    match rainStep sw.1 inp.now inp.rainFetch with
    | .error e =>
      .error (Ev.updateProgress ((inp.now - s.slide_started) / SLIDE_INTERVAL) ::
                ((rotationStep mvvHtml s inp.now inp.mvvEnv).2 ++ sw.2 ++ e.1), e.2)
    | .ok sr =>
      .ok ((fullStep mvvHtml (mvvStep mvvHtml sr.1 inp.now inp.mvvEnv).1 inp.now inp.mvvEnv).1,
           Ev.updateProgress ((inp.now - s.slide_started) / SLIDE_INTERVAL) ::
             ((rotationStep mvvHtml s inp.now inp.mvvEnv).2 ++ sw.2 ++ sr.2 ++
              (mvvStep mvvHtml sr.1 inp.now inp.mvvEnv).2 ++
              (fullStep mvvHtml (mvvStep mvvHtml sr.1 inp.now inp.mvvEnv).1 inp.now inp.mvvEnv).2))

/-! Event selectors and trace-order predicates. -/

def isSetSlideStarted : Ev → Bool
  | .setSlideStarted _ => true
  | _ => false

def isSetLastWeather : Ev → Bool
  | .setLastWeather _ => true
  | _ => false

def isSetLastRain : Ev → Bool
  | .setLastRain _ => true
  | _ => false

def isSetLastMvv : Ev → Bool
  | .setLastMvv _ => true
  | _ => false

def isSetLastFull : Ev → Bool
  | .setLastFull _ => true
  | _ => false

def isFetchWeather : Ev → Bool
  | .fetchWeather => true
  | _ => false

def isFetchRain : Ev → Bool
  | .fetchRain => true
  | _ => false

/-- Any render+push event, of either slide and either refresh mode. -/
def isRenderEv : Ev → Bool
  | .renderWeather _ _ => true
  | .renderMvv _ _ => true
  | _ => false

/-- The render+push emitted by the weather-slide refresh cadences. -/
def isWxRenderStep : Ev → Bool
  | .renderWeather false _ => true
  | _ => false

/-- The render+push emitted by the transit-snapshot cadence. -/
def isMvvRenderStep : Ev → Bool
  | .renderMvv false _ => true
  | _ => false

/-- A full-mode render+push of either slide. -/
def isFullRender : Ev → Bool
  | .renderWeather true _ => true
  | .renderMvv true _ => true
  | _ => false

/-- Holds when no event selected by `isSet` occurs in the trace before the
first event selected by `isSeq`: equivalently, every selected assignment is
preceded by a selected render/fetch. -/
def setAfterSeq (isSet isSeq : Ev → Bool) : List Ev → Bool
  | [] => true
  | e :: rest =>
    if isSet e then false
    else if isSeq e then true
    else setAfterSeq isSet isSeq rest

/-- Claim C2 as stated on one trace: each of the five cadence bookkeeping
assignments happens only after the corresponding render+push. -/
def cadenceAssignsAfter (evs : List Ev) : Prop :=
  setAfterSeq isSetSlideStarted isRenderEv evs = true ∧
  setAfterSeq isSetLastWeather isWxRenderStep evs = true ∧
  setAfterSeq isSetLastRain isWxRenderStep evs = true ∧
  setAfterSeq isSetLastMvv isMvvRenderStep evs = true ∧
  setAfterSeq isSetLastFull isFullRender evs = true

/-- Claim C1 as stated on one tick: when the slide interval has elapsed,
the slide toggles, `slideStartedAt` resets, and the newly active slide is
rendered with a full refresh and progress zero regardless of which slide
becomes active. -/
def c1ClaimHolds (mvvHtml : String) (s : LoopState) (inp : TickInput) : Prop :=
  ∀ s' evs, tick mvvHtml s inp = Except.ok (s', evs) →
    inp.now - s.slide_started ≥ SLIDE_INTERVAL →
    (s'.slide = toggleSlide s.slide ∧ s'.slide_started = inp.now ∧
     (s'.slide = Slide.weather → Ev.renderWeather true 0 ∈ evs) ∧
     (s'.slide = Slide.mvv → Ev.renderMvv true 0 ∈ evs))

/-- Claim C2 as stated on one tick. -/
def c2ClaimHolds (mvvHtml : String) (s : LoopState) (inp : TickInput) : Prop :=
  ∀ s' evs, tick mvvHtml s inp = Except.ok (s', evs) → cadenceAssignsAfter evs

/-! Shutdown path of `main` (src/status.py lines 473-530). -/

/-- Observable actions of the shutdown path. -/
inductive ShutEv where
  | quitDriver
  | sleepDisplay
  deriving DecidableEq

/-- A computation fragment: the actions it performed and the exception it
raised, if any. -/
structure Act where
  evs : List ShutEv
  raised : Option String
  deriving DecidableEq

/-- Sequencing: the second fragment runs only when the first did not
raise. -/
def seqAct (a b : Act) : Act :=
  match a.raised with
  | some e => { evs := a.evs, raised := some e }
  | none => { evs := a.evs ++ b.evs, raised := b.raised }

/-- A bare `try ... except: pass` around a fragment. -/
def catchAll (a : Act) : Act := { evs := a.evs, raised := none }

/-- Python `try body finally fin`: the final block always runs; an
exception it raises replaces a pending one from the body. -/
def tryFinally (body fin : Act) : Act :=
  { evs := body.evs ++ fin.evs,
    raised :=
      match fin.raised with
      | some e => some e
      | none => body.raised }

/-- How the `while True` body terminates: a keyboard interrupt or an
unhandled fault. -/
inductive LoopOutcome where
  | interrupt
  | fault (msg : String)
  deriving DecidableEq

/-- The raw loop body as a fragment: it performs no shutdown action itself
and ends by raising its outcome. -/
def loopBodyAct : LoopOutcome → Act
  | .interrupt => { evs := [], raised := some "KeyboardInterrupt" }
  | .fault m => { evs := [], raised := some m }

/-- The two except clauses at src/status.py lines 515-519: both the
interrupt and any `Exception` are logged and swallowed. -/
def handledBody (o : LoopOutcome) : Act := catchAll (loopBodyAct o)

/-- The finally block (src/status.py lines 520-530): release the browser
session when one exists, swallowing its failure, then sleep the display,
swallowing its failure. -/
def finallyBlock (driver : Option Nat) (quitRaises sleepRaises : Option String) :
    Act :=
  seqAct
    (match driver with
     | some _ => catchAll { evs := [ShutEv.quitDriver], raised := quitRaises }
     | none => { evs := [], raised := none })
    (catchAll { evs := [ShutEv.sleepDisplay], raised := sleepRaises })

/-- The whole guarded loop of `main`: body with its except clauses, then
the finally block. -/
def mainShutdown (o : LoopOutcome) (driver : Option Nat)
    (quitRaises sleepRaises : Option String) : Act :=
  tryFinally (handledBody o) (finallyBlock driver quitRaises sleepRaises)

/-! Concrete scenarios used by counterexamples and witnesses. -/

/-- An MVV oracle in which every external step succeeds. -/
def exMvvEnv : MvvEnv :=
  { now := 0,
    init := { tmpName := "t", tmpFail := none, chromeResult := .ok 1,
              setTimeoutFail := none, navResult := .success },
    reloadNav := .success, freshPng := "p", grabFail := none, pngExists := false }

/-- A loop state at the start of both slide cycle and cadences. -/
def exState : LoopState :=
  { slide := .weather, slide_started := 0, last_weather := 0, last_rain := 0,
    last_mvv := 0, last_full := 0, weather_data := none, rain_eta := none,
    weather_err := none, rain_err := none, weather_error := none, mvv := {} }

/-- A tick input one slide interval later, with unused fetch oracles. -/
def exInput : TickInput :=
  { now := 60, weatherFetch := .exn "boom", rainFetch := .exn "boom",
    mvvEnv := exMvvEnv }

/-- The state after that tick: slide toggled to transit, rotation time
reset, placeholder error recorded by the unconfigured adapter. -/
def exRotState : LoopState :=
  { exState with slide := .mvv, slide_started := 60,
                 mvv := { err := some "MVV Monitor nicht konfiguriert" } }

/-- The event trace of that tick. -/
def exRotEvs : List Ev :=
  [Ev.updateProgress 1, Ev.setSlideStarted 60, Ev.renderMvv false 0]

/-- A loop state on the transit slide with the hourly full refresh due. -/
def exFullState : LoopState :=
  { slide := .mvv, slide_started := 3590, last_weather := 3590,
    last_rain := 3590, last_mvv := 3590, last_full := 0, weather_data := none,
    rain_eta := none, weather_err := none, rain_err := none,
    weather_error := none, mvv := {} }

/-- The tick input on which only the full-refresh cadence fires. -/
def exFullInput : TickInput :=
  { now := 3600, weatherFetch := .exn "x", rainFetch := .exn "x",
    mvvEnv := exMvvEnv }

/-- The state after that tick. -/
def exFullResState : LoopState :=
  { exFullState with last_full := 3600,
                     mvv := { err := some "MVV Monitor nicht konfiguriert" } }

/-- The event trace of that tick: the transit slide is rendered in full
mode. -/
def exFullEvs : List Ev :=
  [Ev.updateProgress (1 / 6), Ev.renderMvv true (1 / 6), Ev.setLastFull 3600]

/-- An empty adapter state dict. -/
def c7st0 : MvvState := {}

/-- A call oracle whose browser launch succeeds but whose
`set_page_load_timeout` raises: the creation attempt fails after a session
was launched. -/
def c7e1 : MvvEnv :=
  { now := 1000,
    init := { tmpName := "t1", tmpFail := none, chromeResult := .ok 1,
              setTimeoutFail := some "session not created", navResult := .success },
    reloadNav := .success, freshPng := "p1", grabFail := none, pngExists := true }

/-- A call oracle whose browser launch itself fails. -/
def c7e2 : MvvEnv :=
  { now := 1200,
    init := { tmpName := "t2", tmpFail := none, chromeResult := .exn "chrome failed",
              setTimeoutFail := none, navResult := .success },
    reloadNav := .success, freshPng := "p2", grabFail := none, pngExists := true }

/-- A call oracle whose session creation fully succeeds. -/
def c7e3 : MvvEnv :=
  { now := 1400,
    init := { tmpName := "t3", tmpFail := none, chromeResult := .ok 3,
              setTimeoutFail := none, navResult := .success },
    reloadNav := .success, freshPng := "p3", grabFail := none, pngExists := true }

/-- A call oracle failing at browser launch, for the retry witness. -/
def c7w1 : MvvEnv :=
  { now := 1000,
    init := { tmpName := "u1", tmpFail := none, chromeResult := .exn "no chromedriver",
              setTimeoutFail := none, navResult := .success },
    reloadNav := .success, freshPng := "q1", grabFail := none, pngExists := true }

/-- A second launch-failure oracle for the retry witness. -/
def c7w2 : MvvEnv :=
  { now := 1200,
    init := { tmpName := "u2", tmpFail := none, chromeResult := .exn "still failing",
              setTimeoutFail := none, navResult := .success },
    reloadNav := .success, freshPng := "q2", grabFail := none, pngExists := true }

/-- A fully successful creation oracle for the retry witness. -/
def c7w3 : MvvEnv :=
  { now := 1400,
    init := { tmpName := "u3", tmpFail := none, chromeResult := .ok 7,
              setTimeoutFail := none, navResult := .success },
    reloadNav := .success, freshPng := "q3", grabFail := none, pngExists := true }

/-! Helper lemmas. -/

/-- Lower bound of Python rounding: the result is within one half below. -/
theorem le_pyRound (q : ℚ) : q - 1 / 2 ≤ (pyRound q : ℚ) := by
  unfold pyRound
  have h1 : (⌊q⌋ : ℚ) ≤ q := Int.floor_le q
  have h2 : q < ⌊q⌋ + 1 := Int.lt_floor_add_one q
  split_ifs <;> push_cast <;> linarith

/-- Upper bound of Python rounding: the result is within one half above. -/
theorem pyRound_le (q : ℚ) : (pyRound q : ℚ) ≤ q + 1 / 2 := by
  unfold pyRound
  have h1 : (⌊q⌋ : ℚ) ≤ q := Int.floor_le q
  have h2 : q < ⌊q⌋ + 1 := Int.lt_floor_add_one q
  split_ifs <;> push_cast <;> linarith

/-- The rain scan returns the clamped rounded distance of the first hit of
the zipped bucket list, in list order. -/
theorem rainScan_eq_find (now threshold : ℚ) (l : List (ℚ × Option ℚ)) :
    rainScan now threshold l =
      (l.find? (rainHit threshold)).map
        (fun b => max (pyRound ((b.1 - now) / 60)) 0) := by
  induction l with
  | nil => rfl
  | cons b rest ih =>
    obtain ⟨stamp, amount⟩ := b
    cases amount with
    | none => simpa [rainScan, rainHit, List.find?] using ih
    | some a =>
      by_cases ha : a ≥ threshold
      · simp [rainScan, rainHit, List.find?, ha]
      · simp [rainScan, rainHit, List.find?, ha, ih]

/-- A successful tick decomposes into its five blocks in source order. -/
theorem tick_ok_decomp (mvvHtml : String) (s : LoopState) (inp : TickInput)
    (s' : LoopState) (evs : List Ev) (h : tick mvvHtml s inp = .ok (s', evs)) :
    ∃ sw sr,
      weatherStep (rotationStep mvvHtml s inp.now inp.mvvEnv).1 inp.now
        inp.weatherFetch = .ok sw ∧
      rainStep sw.1 inp.now inp.rainFetch = .ok sr ∧
      s' = (fullStep mvvHtml (mvvStep mvvHtml sr.1 inp.now inp.mvvEnv).1
              inp.now inp.mvvEnv).1 ∧
      evs = Ev.updateProgress ((inp.now - s.slide_started) / SLIDE_INTERVAL) ::
              ((rotationStep mvvHtml s inp.now inp.mvvEnv).2 ++ sw.2 ++ sr.2 ++
               (mvvStep mvvHtml sr.1 inp.now inp.mvvEnv).2 ++
               (fullStep mvvHtml (mvvStep mvvHtml sr.1 inp.now inp.mvvEnv).1
                 inp.now inp.mvvEnv).2) := by
  unfold tick at h
  split at h
  · exact absurd h (by simp)
  · rename_i sw hw
    split at h
    · exact absurd h (by simp)
    · rename_i sr hr
      injection h with h1
      rw [Prod.mk.injEq] at h1
      exact ⟨sw, sr, hw, hr, h1.1.symm, h1.2.symm⟩

/-- The three possible outcomes of the rotation block. -/
theorem rotationStep_cases (mvvHtml : String) (s : LoopState) (now : ℚ)
    (env : MvvEnv) :
    (¬ now - s.slide_started ≥ SLIDE_INTERVAL ∧
      rotationStep mvvHtml s now env = (s, [])) ∨
    (now - s.slide_started ≥ SLIDE_INTERVAL ∧ toggleSlide s.slide = Slide.weather ∧
      rotationStep mvvHtml s now env
        = ({ s with slide := .weather, slide_started := now },
           [Ev.setSlideStarted now, Ev.renderWeather true 0])) ∨
    (now - s.slide_started ≥ SLIDE_INTERVAL ∧ toggleSlide s.slide = Slide.mvv ∧
      rotationStep mvvHtml s now env
        = ({ s with slide := .mvv, slide_started := now,
                    mvv := (get_mvv_image_cached mvvHtml s.mvv env).state },
           [Ev.setSlideStarted now, Ev.renderMvv false 0])) := by
  by_cases hdue : now - s.slide_started ≥ SLIDE_INTERVAL
  · cases hts : toggleSlide s.slide
    · exact Or.inr (Or.inl ⟨hdue, rfl, by unfold rotationStep; rw [if_pos hdue, hts]⟩)
    · exact Or.inr (Or.inr ⟨hdue, rfl, by unfold rotationStep; rw [if_pos hdue, hts]⟩)
  · exact Or.inl ⟨hdue, by unfold rotationStep; rw [if_neg hdue]⟩

/-- The event list a rotation block can emit. -/
theorem rotationStep_events (mvvHtml : String) (s : LoopState) (now : ℚ)
    (env : MvvEnv) :
    (rotationStep mvvHtml s now env).2 = [] ∨
    (rotationStep mvvHtml s now env).2
      = [Ev.setSlideStarted now, Ev.renderWeather true 0] ∨
    (rotationStep mvvHtml s now env).2
      = [Ev.setSlideStarted now, Ev.renderMvv false 0] := by
  unfold rotationStep
  split
  · split <;> simp
  · simp

/-- The event list a successful weather block emits. -/
theorem weatherStep_events (s : LoopState) (now : ℚ) (wf : FetchOutcome Weather)
    (sw : LoopState × List Ev) (h : weatherStep s now wf = .ok sw) :
    sw.2 = [] ∨ ∃ p, sw.2
      = [Ev.fetchWeather, Ev.renderWeather false p, Ev.setLastWeather now] := by
  unfold weatherStep at h
  split at h
  · split at h
    · exact absurd h (by simp)
    · injection h with h1
      exact Or.inr ⟨_, by rw [← h1]⟩
  · injection h with h1
    exact Or.inl (by rw [← h1])

/-- The event list a successful rain block emits. -/
theorem rainStep_events (s : LoopState) (now : ℚ) (rf : FetchOutcome (Option Int))
    (sr : LoopState × List Ev) (h : rainStep s now rf = .ok sr) :
    sr.2 = [] ∨ ∃ p, sr.2
      = [Ev.fetchRain, Ev.renderWeather false p, Ev.setLastRain now] := by
  unfold rainStep at h
  split at h
  · split at h
    · exact absurd h (by simp)
    · injection h with h1
      exact Or.inr ⟨_, by rw [← h1]⟩
  · injection h with h1
    exact Or.inl (by rw [← h1])

/-- The event list a transit-snapshot block emits. -/
theorem mvvStep_events (mvvHtml : String) (s : LoopState) (now : ℚ)
    (env : MvvEnv) :
    (mvvStep mvvHtml s now env).2 = [] ∨ ∃ p, (mvvStep mvvHtml s now env).2
      = [Ev.renderMvv false p, Ev.setLastMvv now] := by
  unfold mvvStep
  split
  · exact Or.inr ⟨_, rfl⟩
  · exact Or.inl rfl

/-- The event list a full-refresh block emits. -/
theorem fullStep_events (mvvHtml : String) (s : LoopState) (now : ℚ)
    (env : MvvEnv) :
    (fullStep mvvHtml s now env).2 = [] ∨
    (∃ p, (fullStep mvvHtml s now env).2
      = [Ev.renderWeather true p, Ev.setLastFull now]) ∨
    (∃ p, (fullStep mvvHtml s now env).2
      = [Ev.renderMvv true p, Ev.setLastFull now]) := by
  unfold fullStep
  split
  · split
    · exact Or.inr (Or.inl ⟨_, rfl⟩)
    · exact Or.inr (Or.inr ⟨_, rfl⟩)
  · exact Or.inl rfl

/-- The weather block does not change the slide, the rotation time, the
full-refresh time or the adapter state. -/
theorem weatherStep_preserves (s : LoopState) (now : ℚ) (wf : FetchOutcome Weather)
    (sw : LoopState × List Ev) (h : weatherStep s now wf = .ok sw) :
    sw.1.slide = s.slide ∧ sw.1.slide_started = s.slide_started ∧
    sw.1.last_full = s.last_full := by
  unfold weatherStep at h
  split at h
  · split at h
    · exact absurd h (by simp)
    · injection h with h1
      rw [← h1]
      exact ⟨rfl, rfl, rfl⟩
  · injection h with h1
    rw [← h1]
    exact ⟨rfl, rfl, rfl⟩

/-- The rain block does not change the slide, the rotation time or the
full-refresh time. -/
theorem rainStep_preserves (s : LoopState) (now : ℚ) (rf : FetchOutcome (Option Int))
    (sr : LoopState × List Ev) (h : rainStep s now rf = .ok sr) :
    sr.1.slide = s.slide ∧ sr.1.slide_started = s.slide_started ∧
    sr.1.last_full = s.last_full := by
  unfold rainStep at h
  split at h
  · split at h
    · exact absurd h (by simp)
    · injection h with h1
      rw [← h1]
      exact ⟨rfl, rfl, rfl⟩
  · injection h with h1
    rw [← h1]
    exact ⟨rfl, rfl, rfl⟩

/-- The transit-snapshot block does not change the slide, the rotation time
or the full-refresh time. -/
theorem mvvStep_preserves (mvvHtml : String) (s : LoopState) (now : ℚ)
    (env : MvvEnv) :
    (mvvStep mvvHtml s now env).1.slide = s.slide ∧
    (mvvStep mvvHtml s now env).1.slide_started = s.slide_started ∧
    (mvvStep mvvHtml s now env).1.last_full = s.last_full := by
  unfold mvvStep
  split
  · exact ⟨rfl, rfl, rfl⟩
  · exact ⟨rfl, rfl, rfl⟩

/-- The full-refresh block does not change the slide or the rotation
time. -/
theorem fullStep_preserves (mvvHtml : String) (s : LoopState) (now : ℚ)
    (env : MvvEnv) :
    (fullStep mvvHtml s now env).1.slide = s.slide ∧
    (fullStep mvvHtml s now env).1.slide_started = s.slide_started := by
  unfold fullStep
  split
  · split
    · exact ⟨rfl, rfl⟩
    · exact ⟨rfl, rfl⟩
  · exact ⟨rfl, rfl⟩

/-- The rotation block does not change the full-refresh time. -/
theorem rotationStep_preserves (mvvHtml : String) (s : LoopState) (now : ℚ)
    (env : MvvEnv) :
    (rotationStep mvvHtml s now env).1.last_full = s.last_full := by
  unfold rotationStep
  split
  · split
    · rfl
    · rfl
  · rfl

/-- Behavior of the full-refresh block when it is due. -/
theorem fullStep_due (mvvHtml : String) (s : LoopState) (now : ℚ) (env : MvvEnv)
    (h : now - s.last_full ≥ FULL_REFRESH) :
    (fullStep mvvHtml s now env).1.last_full = now ∧
    (s.slide = Slide.weather → fullStep mvvHtml s now env
      = ({ s with last_full := now },
         [Ev.renderWeather true ((now - s.slide_started) / SLIDE_INTERVAL),
          Ev.setLastFull now])) ∧
    (s.slide = Slide.mvv → fullStep mvvHtml s now env
      = ({ s with mvv := (get_mvv_image_cached mvvHtml s.mvv env).state,
                  last_full := now },
         [Ev.renderMvv true ((now - s.slide_started) / SLIDE_INTERVAL),
          Ev.setLastFull now])) := by
  unfold fullStep
  rw [if_pos h]
  refine ⟨?_, ?_, ?_⟩
  · split
    · rfl
    · rfl
  · intro hsl
    rw [hsl]
  · intro hsl
    rw [hsl]

/-! Claim theorems. -/

/-- C1 counterexample: on the tick that rotates from the weather slide to
the transit slide, the transit slide is rendered with a partial refresh,
not the full refresh the claim requires for both directions. -/
theorem slide_rotation_full_refresh_cex : ¬ c1ClaimHolds "" exState exInput := by
  intro h
  have h2 := h exRotState exRotEvs
    (by norm_num [tick, rotationStep, weatherStep, rainStep, mvvStep, fullStep,
      get_mvv_image_cached, exState, exInput, exRotState, exRotEvs, exMvvEnv,
      toggleSlide, SLIDE_INTERVAL, WX_REFRESH, RAIN_REFRESH, MVV_REFRESH, FULL_REFRESH])
    (by norm_num [exInput, exState, SLIDE_INTERVAL])
  have h3 := h2.2.2.2 rfl
  simp [exRotEvs] at h3

/-- C1 (amended): on the tick where the slide interval has elapsed, the
active slide toggles, `slideStartedAt` is reset to the tick time, and the
newly active slide is rendered and pushed with progress zero — with a full
display refresh when the weather slide becomes active, but with a partial
refresh when the transit slide becomes active. -/
theorem slide_rotation_toggle_reset_render (mvvHtml : String) (s : LoopState)
    (inp : TickInput) (s' : LoopState) (evs : List Ev)
    (h : tick mvvHtml s inp = .ok (s', evs))
    (hdue : inp.now - s.slide_started ≥ SLIDE_INTERVAL) :
    s'.slide = toggleSlide s.slide ∧ s'.slide_started = inp.now ∧
    (toggleSlide s.slide = Slide.weather → Ev.renderWeather true 0 ∈ evs) ∧
    (toggleSlide s.slide = Slide.mvv → Ev.renderMvv false 0 ∈ evs) := by
  obtain ⟨sw, sr, hw, hr, hs, hevs⟩ := tick_ok_decomp mvvHtml s inp s' evs h
  have hwp := weatherStep_preserves _ _ _ _ hw
  have hrp := rainStep_preserves _ _ _ _ hr
  have hmp := mvvStep_preserves mvvHtml sr.1 inp.now inp.mvvEnv
  have hfp := fullStep_preserves mvvHtml
    (mvvStep mvvHtml sr.1 inp.now inp.mvvEnv).1 inp.now inp.mvvEnv
  rcases rotationStep_cases mvvHtml s inp.now inp.mvvEnv with
    ⟨hnd, _⟩ | ⟨_, hts, h1⟩ | ⟨_, hts, h1⟩
  · exact absurd hdue hnd
  · refine ⟨?_, ?_, ?_, ?_⟩
    · rw [hs, hfp.1, hmp.1, hrp.1, hwp.1, h1, hts]
    · rw [hs, hfp.2, hmp.2.1, hrp.2.1, hwp.2.1, h1]
    · intro _
      rw [hevs, h1]
      simp
    · intro hmv
      rw [hts] at hmv
      simp at hmv
  · refine ⟨?_, ?_, ?_, ?_⟩
    · rw [hs, hfp.1, hmp.1, hrp.1, hwp.1, h1, hts]
    · rw [hs, hfp.2, hmp.2.1, hrp.2.1, hwp.2.1, h1]
    · intro hwx
      rw [hts] at hwx
      simp at hwx
    · intro _
      rw [hevs, h1]
      simp

/-- C1 witness: the rotation tick of the concrete scenario, toggling to the
transit slide. -/
theorem slide_rotation_toggle_reset_render_w :
    exRotState.slide = toggleSlide exState.slide ∧
    exRotState.slide_started = exInput.now ∧
    (toggleSlide exState.slide = Slide.weather →
      Ev.renderWeather true 0 ∈ exRotEvs) ∧
    (toggleSlide exState.slide = Slide.mvv → Ev.renderMvv false 0 ∈ exRotEvs) :=
  slide_rotation_toggle_reset_render "" exState exInput exRotState exRotEvs
    (by norm_num [tick, rotationStep, weatherStep, rainStep, mvvStep, fullStep,
      get_mvv_image_cached, exState, exInput, exRotState, exRotEvs, exMvvEnv,
      toggleSlide, SLIDE_INTERVAL, WX_REFRESH, RAIN_REFRESH, MVV_REFRESH, FULL_REFRESH])
    (by norm_num [exInput, exState, SLIDE_INTERVAL])

/-- C2 counterexample: on the rotation tick of the concrete scenario the
trace is progress redraw, then the `slideStartedAt` assignment, then the
render of the new slide — the rotation cadence is recorded as fired before
its render+push ran, refuting the claim for the slide-rotation cadence. -/
theorem cadence_assign_order_cex : ¬ c2ClaimHolds "" exState exInput := by
  intro h
  have h2 := h exRotState exRotEvs
    (by norm_num [tick, rotationStep, weatherStep, rainStep, mvvStep, fullStep,
      get_mvv_image_cached, exState, exInput, exRotState, exRotEvs, exMvvEnv,
      toggleSlide, SLIDE_INTERVAL, WX_REFRESH, RAIN_REFRESH, MVV_REFRESH, FULL_REFRESH])
  have h3 := h2.1
  simp [exRotEvs, setAfterSeq, isSetSlideStarted, isRenderEv] at h3

/-- C2 (amended): on every completed tick, each of the four refresh
cadences (weather, rain, transit snapshot, full display) assigns its
last-fired timestamp only after its fetch+render+push events, never
before; the slide-rotation cadence is the exception: it assigns
`slideStartedAt` first and renders the new slide afterwards. -/
theorem cadence_assign_after_render (mvvHtml : String) (s : LoopState)
    (inp : TickInput) (s' : LoopState) (evs : List Ev)
    (h : tick mvvHtml s inp = .ok (s', evs)) :
    setAfterSeq isSetLastWeather isWxRenderStep evs = true ∧
    setAfterSeq isSetLastWeather isFetchWeather evs = true ∧
    setAfterSeq isSetLastRain isWxRenderStep evs = true ∧
    setAfterSeq isSetLastRain isFetchRain evs = true ∧
    setAfterSeq isSetLastMvv isMvvRenderStep evs = true ∧
    setAfterSeq isSetLastFull isFullRender evs = true ∧
    (inp.now - s.slide_started ≥ SLIDE_INTERVAL →
      ∃ r rest, evs
        = Ev.updateProgress ((inp.now - s.slide_started) / SLIDE_INTERVAL) ::
            Ev.setSlideStarted inp.now :: r :: rest ∧ isRenderEv r = true) := by
  obtain ⟨sw, sr, hw, hr, hs, hevs⟩ := tick_ok_decomp mvvHtml s inp s' evs h
  subst hevs
  have hrot : inp.now - s.slide_started ≥ SLIDE_INTERVAL →
      ∃ r rest,
        Ev.updateProgress ((inp.now - s.slide_started) / SLIDE_INTERVAL) ::
            ((rotationStep mvvHtml s inp.now inp.mvvEnv).2 ++ sw.2 ++ sr.2 ++
             (mvvStep mvvHtml sr.1 inp.now inp.mvvEnv).2 ++
             (fullStep mvvHtml (mvvStep mvvHtml sr.1 inp.now inp.mvvEnv).1
               inp.now inp.mvvEnv).2)
          = Ev.updateProgress ((inp.now - s.slide_started) / SLIDE_INTERVAL) ::
              Ev.setSlideStarted inp.now :: r :: rest ∧ isRenderEv r = true := by
    intro hdue
    rcases rotationStep_cases mvvHtml s inp.now inp.mvvEnv with
      ⟨hnd, _⟩ | ⟨_, _, h1⟩ | ⟨_, _, h1⟩
    · exact absurd hdue hnd
    · refine ⟨Ev.renderWeather true 0,
        sw.2 ++ sr.2 ++ (mvvStep mvvHtml sr.1 inp.now inp.mvvEnv).2 ++
          (fullStep mvvHtml (mvvStep mvvHtml sr.1 inp.now inp.mvvEnv).1
            inp.now inp.mvvEnv).2, ?_, rfl⟩
      rw [h1]
      simp
    · refine ⟨Ev.renderMvv false 0,
        sw.2 ++ sr.2 ++ (mvvStep mvvHtml sr.1 inp.now inp.mvvEnv).2 ++
          (fullStep mvvHtml (mvvStep mvvHtml sr.1 inp.now inp.mvvEnv).1
            inp.now inp.mvvEnv).2, ?_, rfl⟩
      rw [h1]
      simp
  refine ⟨?_, ?_, ?_, ?_, ?_, ?_, hrot⟩ <;>
  · rcases rotationStep_events mvvHtml s inp.now inp.mvvEnv with h1 | h1 | h1 <;>
    rcases weatherStep_events _ _ _ _ hw with h2 | ⟨p2, h2⟩ <;>
    rcases rainStep_events _ _ _ _ hr with h3 | ⟨p3, h3⟩ <;>
    rcases mvvStep_events mvvHtml sr.1 inp.now inp.mvvEnv with h4 | ⟨p4, h4⟩ <;>
    rcases fullStep_events mvvHtml (mvvStep mvvHtml sr.1 inp.now inp.mvvEnv).1
      inp.now inp.mvvEnv with h5 | ⟨p5, h5⟩ | ⟨p5, h5⟩ <;>
    rw [h1, h2, h3, h4, h5] <;>
    simp [setAfterSeq, isSetSlideStarted, isSetLastWeather, isSetLastRain,
      isSetLastMvv, isSetLastFull, isFetchWeather, isFetchRain,
      isWxRenderStep, isMvvRenderStep, isFullRender, isRenderEv]

/-- C2 witness: the rotation tick of the concrete scenario, on which the
four refresh cadences are idle and the rotation fires. -/
theorem cadence_assign_after_render_w :
    setAfterSeq isSetLastWeather isWxRenderStep exRotEvs = true ∧
    setAfterSeq isSetLastWeather isFetchWeather exRotEvs = true ∧
    setAfterSeq isSetLastRain isWxRenderStep exRotEvs = true ∧
    setAfterSeq isSetLastRain isFetchRain exRotEvs = true ∧
    setAfterSeq isSetLastMvv isMvvRenderStep exRotEvs = true ∧
    setAfterSeq isSetLastFull isFullRender exRotEvs = true ∧
    (exInput.now - exState.slide_started ≥ SLIDE_INTERVAL →
      ∃ r rest, exRotEvs
        = Ev.updateProgress ((exInput.now - exState.slide_started) / SLIDE_INTERVAL) ::
            Ev.setSlideStarted exInput.now :: r :: rest ∧ isRenderEv r = true) :=
  cadence_assign_after_render "" exState exInput exRotState exRotEvs
    (by norm_num [tick, rotationStep, weatherStep, rainStep, mvvStep, fullStep,
      get_mvv_image_cached, exState, exInput, exRotState, exRotEvs, exMvvEnv,
      toggleSlide, SLIDE_INTERVAL, WX_REFRESH, RAIN_REFRESH, MVV_REFRESH, FULL_REFRESH])

/-- C8: on every completed tick where the full-display-refresh cadence is
due, `last_full` is set to the tick time and the tick ends by rendering
and pushing whichever slide is then active in full mode — the transit
slide when the transit slide is active, the weather slide when the
weather slide is active. -/
theorem full_refresh_renders_active_slide (mvvHtml : String) (s : LoopState)
    (inp : TickInput) (s' : LoopState) (evs : List Ev)
    (h : tick mvvHtml s inp = .ok (s', evs))
    (hdue : inp.now - s.last_full ≥ FULL_REFRESH) :
    s'.last_full = inp.now ∧
    (s'.slide = Slide.weather → ∃ pre, evs
      = pre ++ [Ev.renderWeather true ((inp.now - s'.slide_started) / SLIDE_INTERVAL),
                Ev.setLastFull inp.now]) ∧
    (s'.slide = Slide.mvv → ∃ pre, evs
      = pre ++ [Ev.renderMvv true ((inp.now - s'.slide_started) / SLIDE_INTERVAL),
                Ev.setLastFull inp.now]) := by
  obtain ⟨sw, sr, hw, hr, hs, hevs⟩ := tick_ok_decomp mvvHtml s inp s' evs h
  have hwp := weatherStep_preserves _ _ _ _ hw
  have hrp := rainStep_preserves _ _ _ _ hr
  have hmp := mvvStep_preserves mvvHtml sr.1 inp.now inp.mvvEnv
  have hrl := rotationStep_preserves mvvHtml s inp.now inp.mvvEnv
  have hmdue : inp.now -
      (mvvStep mvvHtml sr.1 inp.now inp.mvvEnv).1.last_full ≥ FULL_REFRESH := by
    rw [hmp.2.2, hrp.2.2, hwp.2.2, hrl]
    exact hdue
  have hfd := fullStep_due mvvHtml (mvvStep mvvHtml sr.1 inp.now inp.mvvEnv).1
    inp.now inp.mvvEnv hmdue
  have hfp := fullStep_preserves mvvHtml
    (mvvStep mvvHtml sr.1 inp.now inp.mvvEnv).1 inp.now inp.mvvEnv
  refine ⟨by rw [hs]; exact hfd.1, ?_, ?_⟩
  · intro hsl
    have hms : (mvvStep mvvHtml sr.1 inp.now inp.mvvEnv).1.slide = Slide.weather := by
      rw [← hfp.1, ← hs]
      exact hsl
    have hfe := hfd.2.1 hms
    refine ⟨Ev.updateProgress ((inp.now - s.slide_started) / SLIDE_INTERVAL) ::
      ((rotationStep mvvHtml s inp.now inp.mvvEnv).2 ++ sw.2 ++ sr.2 ++
       (mvvStep mvvHtml sr.1 inp.now inp.mvvEnv).2), ?_⟩
    rw [hevs, hfe]
    have hss : (mvvStep mvvHtml sr.1 inp.now inp.mvvEnv).1.slide_started
        = s'.slide_started := by
      rw [hs, hfp.2]
    rw [hss]
    simp
  · intro hsl
    have hms : (mvvStep mvvHtml sr.1 inp.now inp.mvvEnv).1.slide = Slide.mvv := by
      rw [← hfp.1, ← hs]
      exact hsl
    have hfe := hfd.2.2 hms
    refine ⟨Ev.updateProgress ((inp.now - s.slide_started) / SLIDE_INTERVAL) ::
      ((rotationStep mvvHtml s inp.now inp.mvvEnv).2 ++ sw.2 ++ sr.2 ++
       (mvvStep mvvHtml sr.1 inp.now inp.mvvEnv).2), ?_⟩
    rw [hevs, hfe]
    have hss : (mvvStep mvvHtml sr.1 inp.now inp.mvvEnv).1.slide_started
        = s'.slide_started := by
      rw [hs, hfp.2]
    rw [hss]
    simp

/-- C8 witness: the concrete tick on the transit slide where only the
hourly full refresh fires: the transit slide is rendered in full mode. -/
theorem full_refresh_renders_active_slide_w :
    exFullResState.last_full = exFullInput.now ∧
    (exFullResState.slide = Slide.weather → ∃ pre, exFullEvs
      = pre ++ [Ev.renderWeather true
                  ((exFullInput.now - exFullResState.slide_started) / SLIDE_INTERVAL),
                Ev.setLastFull exFullInput.now]) ∧
    (exFullResState.slide = Slide.mvv → ∃ pre, exFullEvs
      = pre ++ [Ev.renderMvv true
                  ((exFullInput.now - exFullResState.slide_started) / SLIDE_INTERVAL),
                Ev.setLastFull exFullInput.now]) :=
  full_refresh_renders_active_slide "" exFullState exFullInput exFullResState
    exFullEvs
    (by norm_num [tick, rotationStep, weatherStep, rainStep, mvvStep, fullStep,
      get_mvv_image_cached, mvvAfterSession, mvvSnapshotStep, mvvGrabStep,
      mvvCompose, exFullState, exFullInput, exFullResState, exFullEvs, exMvvEnv,
      toggleSlide, SLIDE_INTERVAL, WX_REFRESH, RAIN_REFRESH, MVV_REFRESH,
      FULL_REFRESH])
    (by norm_num [exFullInput, exFullState, FULL_REFRESH])

/-- C3 (code bug): `safe_fetch` does not isolate a failure whose exception
message is empty: `str(exc).splitlines()` is then the empty list and the
subscript `[0]` raises `IndexError` out of `safe_fetch` itself, instead of
returning the promised `(None, first line)` pair. -/
theorem safe_fetch_empty_message_raises :
    safe_fetch (FetchOutcome.exn "" : FetchOutcome Weather) =
      .error PyError.indexError := rfl

/-- C4 counterexample: the code does not restrict the scan to buckets at or
after now.  With buckets at 0 s and 1500 s, both raining, and now at
600 s, the code clamps the past hit to 0 minutes while the claim picks the
future bucket at 15 minutes. -/
theorem rain_eta_at_or_after_now_cex : ¬ c4ClaimHolds := by
  intro h
  have hc := h [0, 1500] [some (1 / 2), some (1 / 2)] 600 (1 / 10)
  rw [show fetch_rain_eta [0, 1500] [some (1 / 2), some (1 / 2)] 600 (1 / 10)
        = some 0 from by norm_num [fetch_rain_eta, rainScan, pyRound]] at hc
  rw [show claimRainEta [0, 1500] [some (1 / 2), some (1 / 2)] 600 (1 / 10)
        = some 15 from by norm_num [claimRainEta, claimRainScan, pyRound]] at hc
  exact absurd hc (by decide)

/-- C4 (amended): the rain-ETA lookup returns, for the first bucket in
list order whose amount is present and at least the threshold — whether or
not that bucket lies after now — the rounded minutes from now clamped to
zero; buckets with a missing amount are skipped, and the result is absent
when no bucket qualifies. -/
theorem rain_eta_first_hit_clamped (times : List ℚ) (prec : List (Option ℚ))
    (now threshold : ℚ) :
    fetch_rain_eta times prec now threshold =
      ((times.zip prec).find? (rainHit threshold)).map
        (fun b => max (pyRound ((b.1 - now) / 60)) 0) :=
  rainScan_eq_find now threshold (times.zip prec)

/-- C5: when no bucket of the forecast has an amount at or above the
threshold, the rain-ETA lookup returns the absent value. -/
theorem rain_eta_none_below_threshold (times : List ℚ) (prec : List (Option ℚ))
    (now threshold : ℚ)
    (h : ∀ b ∈ times.zip prec, ∀ a, b.2 = some a → a < threshold) :
    fetch_rain_eta times prec now threshold = none := by
  have hfind : (times.zip prec).find? (rainHit threshold) = none := by
    rw [List.find?_eq_none]
    intro b hb
    rcases b with ⟨stamp, amount⟩
    cases amount with
    | none => simp [rainHit]
    | some a =>
      have ha := h _ hb a rfl
      simp [rainHit, not_le.mpr ha]
  unfold fetch_rain_eta
  rw [rainScan_eq_find, hfind]
  rfl

/-- C5 witness: a forecast of a dry bucket and a null bucket yields no
rain ETA. -/
theorem rain_eta_none_below_threshold_w :
    fetch_rain_eta [0, 900] [some 0, none] 0 (1 / 10) = none :=
  rain_eta_none_below_threshold [0, 900] [some 0, none] 0 (1 / 10) (by
    intro b hb a hba
    simp only [List.zip_cons_cons, List.zip_nil_right, List.mem_cons,
      List.not_mem_nil, or_false] at hb
    rcases hb with rfl | rfl
    · injection hba with h1
      subst h1
      norm_num
    · exact absurd hba (by simp))

/-- C10: the progress fraction is clamped into the unit interval before the
segment count is computed, so the number of filled segments always lies
between zero and the total segment count, for any fraction including
negative ones and ones above one. -/
theorem draw_progress_filled_bounds (frac : ℚ) :
    0 ≤ draw_progress_filled frac ∧ draw_progress_filled frac ≤ progSegs := by
  have hseg : progSegs = 50 := by decide
  have hx0 : (0 : ℚ) ≤ max 0 (min 1 frac) := le_max_left _ _
  have hx1 : max 0 (min 1 frac) ≤ 1 := max_le (by norm_num) (min_le_left _ _)
  have hs0 : (0 : ℚ) ≤ (progSegs : ℚ) := by rw [hseg]; norm_num
  have hm0 : (0 : ℚ) ≤ max 0 (min 1 frac) * (progSegs : ℚ) := mul_nonneg hx0 hs0
  have hm1 : max 0 (min 1 frac) * (progSegs : ℚ) ≤ (progSegs : ℚ) := by
    calc max 0 (min 1 frac) * (progSegs : ℚ)
        ≤ 1 * (progSegs : ℚ) := mul_le_mul_of_nonneg_right hx1 hs0
      _ = (progSegs : ℚ) := one_mul _
  constructor
  · have hlb := le_pyRound (max 0 (min 1 frac) * (progSegs : ℚ))
    have hq : (-1 : ℚ) < (pyRound (max 0 (min 1 frac) * (progSegs : ℚ)) : ℚ) := by
      linarith
    have hz : (-1 : ℤ) < pyRound (max 0 (min 1 frac) * (progSegs : ℚ)) := by
      exact_mod_cast hq
    unfold draw_progress_filled
    omega
  · have hub := pyRound_le (max 0 (min 1 frac) * (progSegs : ℚ))
    have hq : (pyRound (max 0 (min 1 frac) * (progSegs : ℚ)) : ℚ)
        < (progSegs : ℚ) + 1 := by linarith
    have hz : pyRound (max 0 (min 1 frac) * (progSegs : ℚ)) < progSegs + 1 := by
      exact_mod_cast hq
    unfold draw_progress_filled
    omega

/-- The snapshot refresh never changes the stored session. -/
theorem mvvSnapshotStep_driver (st : MvvState) (env : MvvEnv) :
    (mvvSnapshotStep st env).driver = st.driver := by
  unfold mvvSnapshotStep mvvGrabStep
  repeat' split
  all_goals rfl

/-- C6: with an empty monitor configuration every adapter call returns the
fixed placeholder canvas and message, no browser session is ever launched,
and session creation is never attempted, for every starting state and call
sequence. -/
theorem mvv_unconfigured_placeholder (st : MvvState) (envs : List MvvEnv) :
    ((runMvvCalls "" st envs).outputs.all fun out =>
      decide (out = (MvvCanvas.notConfigured,
        some "MVV Monitor nicht konfiguriert"))) = true ∧
    (runMvvCalls "" st envs).created = [] ∧
    (runMvvCalls "" st envs).initTries = 0 := by
  induction envs generalizing st with
  | nil => simp [runMvvCalls]
  | cons e rest ih =>
    simpa [runMvvCalls, get_mvv_image_cached] using ih _

/-- C7 counterexample: a creation attempt failing after the browser launch
(here `set_page_load_timeout` raising) leaves a launched session that is
neither stored nor released; after two failed attempts and a success the
adapter stores session 3 while session 1 has leaked, refuting the claim
that only the stored session was ever created. -/
theorem mvv_session_leak_cex : ¬ c7ClaimHolds := by
  intro h
  obtain ⟨d, hd, hc⟩ := h "x" c7st0 c7e1 c7e2 c7e3 (by decide) rfl
    ⟨"session not created", [1], rfl⟩
    ⟨"chrome failed", [], rfl⟩
    ⟨3, "t3", [3], rfl⟩
  rw [show (runMvvCalls "x" c7st0 [c7e1, c7e2, c7e3]).state.driver = some 3 from by
        norm_num +decide [runMvvCalls, get_mvv_image_cached, init_browser,
          mvvAfterSession, mvvSnapshotStep, mvvGrabStep, mvvCompose,
          c7st0, c7e1, c7e2, c7e3, MVV_REFRESH]] at hd
  rw [show (runMvvCalls "x" c7st0 [c7e1, c7e2, c7e3]).created = [1, 3] from by
        norm_num +decide [runMvvCalls, get_mvv_image_cached, init_browser,
          mvvAfterSession, mvvSnapshotStep, mvvGrabStep, mvvCompose,
          c7st0, c7e1, c7e2, c7e3, MVV_REFRESH]] at hc
  injection hd with hd3
  subst hd3
  exact absurd hc (by decide)

/-- C7 (amended): a failed session-creation attempt records the first line
of the formatted failure as the adapter error, leaves no session stored,
and the next call attempts creation again; two consecutive creation
attempts that fail before a browser is launched, followed by a successful
one, leave the adapter holding the new session with no other session ever
launched. -/
theorem mvv_session_retry_after_failures
    (mvvHtml : String) (st : MvvState) (e1 e2 e3 : MvvEnv)
    (m1 m2 : String) (d3 : Nat) (p3 : String)
    (hcfg : mvvHtml ≠ "") (hdrv : st.driver = none)
    (h1 : init_browser mvvHtml e1.init = (.error m1, []))
    (h2 : init_browser mvvHtml e2.init = (.error m2, []))
    (h3 : init_browser mvvHtml e3.init = (.ok (d3, p3), [d3])) :
    (get_mvv_image_cached mvvHtml st e1).state.driver = none ∧
    (get_mvv_image_cached mvvHtml st e1).errOut = some (mvvFirstLine m1) ∧
    (get_mvv_image_cached mvvHtml st e1).initTried = true ∧
    (get_mvv_image_cached mvvHtml st e1).created = [] ∧
    (get_mvv_image_cached mvvHtml
      (get_mvv_image_cached mvvHtml st e1).state e2).state.driver = none ∧
    (get_mvv_image_cached mvvHtml
      (get_mvv_image_cached mvvHtml st e1).state e2).errOut = some (mvvFirstLine m2) ∧
    (get_mvv_image_cached mvvHtml
      (get_mvv_image_cached mvvHtml st e1).state e2).initTried = true ∧
    (get_mvv_image_cached mvvHtml (get_mvv_image_cached mvvHtml
      (get_mvv_image_cached mvvHtml st e1).state e2).state e3).state.driver = some d3 ∧
    (runMvvCalls mvvHtml st [e1, e2, e3]).created = [d3] := by
  have hr1 : get_mvv_image_cached mvvHtml st e1
      = { canvas := .blank, errOut := some (mvvFirstLine m1),
          state := { st with err := some (mvvFirstLine m1) },
          created := [], initTried := true } := by
    unfold get_mvv_image_cached
    rw [if_neg hcfg, hdrv, h1]
  have hd1 : ({ st with err := some (mvvFirstLine m1) } : MvvState).driver = none := hdrv
  have hr2 : get_mvv_image_cached mvvHtml
        ({ st with err := some (mvvFirstLine m1) } : MvvState) e2
      = { canvas := .blank, errOut := some (mvvFirstLine m2),
          state := { st with err := some (mvvFirstLine m2) },
          created := [], initTried := true } := by
    unfold get_mvv_image_cached
    rw [if_neg hcfg, hd1, h2]
  have hd2 : ({ st with err := some (mvvFirstLine m2) } : MvvState).driver = none := hdrv
  have hr3 : get_mvv_image_cached mvvHtml
        ({ st with err := some (mvvFirstLine m2) } : MvvState) e3
      = mvvAfterSession
          { st with err := some (mvvFirstLine m2), driver := some d3,
                    html_path := some p3, last_reload := some 0 }
          e3 [d3] true := by
    unfold get_mvv_image_cached
    rw [if_neg hcfg, hd2, h3]
  refine ⟨?_, ?_, ?_, ?_, ?_, ?_, ?_, ?_, ?_⟩
  · rw [hr1]; exact hdrv
  · rw [hr1]
  · rw [hr1]
  · rw [hr1]
  · rw [hr1, hr2]; exact hdrv
  · rw [hr1, hr2]
  · rw [hr1, hr2]
  · rw [hr1, hr2, hr3]
    have hds := mvvSnapshotStep_driver
      { st with err := some (mvvFirstLine m2), driver := some d3,
                html_path := some p3, last_reload := some 0 } e3
    simpa [mvvAfterSession] using hds
  · simp only [runMvvCalls, hr1, hr2, hr3]
    simp [mvvAfterSession]

/-- C7 witness: two launch failures followed by a success on a configured
adapter, with the concrete oracles of the scenario definitions. -/
theorem mvv_session_retry_after_failures_w :
    (get_mvv_image_cached "x" c7st0 c7w1).state.driver = none ∧
    (get_mvv_image_cached "x" c7st0 c7w1).errOut
      = some (mvvFirstLine "no chromedriver") ∧
    (get_mvv_image_cached "x" c7st0 c7w1).initTried = true ∧
    (get_mvv_image_cached "x" c7st0 c7w1).created = [] ∧
    (get_mvv_image_cached "x"
      (get_mvv_image_cached "x" c7st0 c7w1).state c7w2).state.driver = none ∧
    (get_mvv_image_cached "x"
      (get_mvv_image_cached "x" c7st0 c7w1).state c7w2).errOut
      = some (mvvFirstLine "still failing") ∧
    (get_mvv_image_cached "x"
      (get_mvv_image_cached "x" c7st0 c7w1).state c7w2).initTried = true ∧
    (get_mvv_image_cached "x" (get_mvv_image_cached "x"
      (get_mvv_image_cached "x" c7st0 c7w1).state c7w2).state c7w3).state.driver
      = some 7 ∧
    (runMvvCalls "x" c7st0 [c7w1, c7w2, c7w3]).created = [7] :=
  mvv_session_retry_after_failures "x" c7st0 c7w1 c7w2 c7w3
    "no chromedriver" "still failing" 7 "u3" (by decide) rfl rfl rfl rfl

/-- C9: however the loop body terminates — interrupt or unhandled fault —
and whether or not the release or the sleep call itself raises, the
shutdown path releases the stored session exactly once when one exists,
sleeps the display exactly once, and lets no exception escape; the sleep
happens even when the release raised. -/
theorem shutdown_quit_and_sleep_once (o : LoopOutcome) (driver : Option Nat)
    (quitRaises sleepRaises : Option String) :
    (mainShutdown o driver quitRaises sleepRaises).evs
      = (if driver.isSome then [ShutEv.quitDriver] else []) ++ [ShutEv.sleepDisplay] ∧
    (mainShutdown o driver quitRaises sleepRaises).evs.count ShutEv.sleepDisplay = 1 ∧
    (mainShutdown o driver quitRaises sleepRaises).evs.count ShutEv.quitDriver
      = (if driver.isSome then 1 else 0) ∧
    (mainShutdown o driver quitRaises sleepRaises).raised = none := by
  cases o <;> cases driver <;>
    simp [mainShutdown, tryFinally, handledBody, catchAll, loopBodyAct,
      finallyBlock, seqAct, List.count_cons, List.count_nil]

end Statusboard
